import Mathlib

/-!
Verification of the response-formatting layer of the china-stock-mcp-server
repository (src/main.py and src/server.py), as a shallow embedding in Lean.

The embedding covers:
* the pandas DataFrame values the formatter consumes (column names plus a
  list of rows, each row a list of already-JSON-converted cell values);
* Python `json.dumps` with its default separators, restricted to the value
  shapes the program actually serializes;
* `format_dataframe_to_json` (identical in src/main.py lines 10-31 and
  src/server.py lines 11-32);
* the tool-wrapper shape shared by every `@mcp.tool()` function (try the
  external fetch and format, catch every exception into an error object),
  and the external-call argument lists of the wrappers the claims cite.
-/

/-- JSON values, as produced by Python `json.loads` / consumed by
`json.dumps`.  Numbers are restricted to integers: every numeric field the
formatter itself writes (`total_rows`, `displayed_rows`) is an `int`, and
cell values enter the model already converted. -/
inductive Json where
  | null : Json
  | bool : Bool → Json
  | int : Int → Json
  | str : String → Json
  | arr : List Json → Json
  | obj : List (String × Json) → Json

/-- Escaping of one character inside a Python `json.dumps` string literal
(the characters the program actually emits: printable ASCII plus the usual
short escapes). -/
def escapeChar (c : Char) : String :=
  if c = '"' then "\\\""
  else if c = '\\' then "\\\\"
  else if c = '\n' then "\\n"
  else if c = '\t' then "\\t"
  else if c = '\x0d' then "\\r"
  else String.singleton c

/-- A Python `json.dumps` string literal: quote, escape, quote. -/
def dumpString (s : String) : String :=
  "\"" ++ String.join (s.data.map escapeChar) ++ "\""

mutual
/-- Python `json.dumps` with default arguments (item separator `", "`, key
separator `": "`, no indent), which is what both source files call. -/
def jsonDumps : Json → String
  | Json.null => "null"
  | Json.bool b => if b then "true" else "false"
  | Json.int n => toString n
  | Json.str s => dumpString s
  | Json.arr xs => "[" ++ dumpsList xs ++ "]"
  | Json.obj kvs => "\x7b" ++ dumpsObj kvs ++ "\x7d"

/-- Comma-joined rendering of an array's elements. -/
def dumpsList : List Json → String
  | [] => ""
  | [x] => jsonDumps x
  | x :: xs => jsonDumps x ++ ", " ++ dumpsList xs

/-- Comma-joined rendering of an object's key/value pairs. -/
def dumpsObj : List (String × Json) → String
  | [] => ""
  | [(k, v)] => dumpString k ++ ": " ++ jsonDumps v
  | (k, v) :: kvs => dumpString k ++ ": " ++ jsonDumps v ++ ", " ++ dumpsObj kvs
end

/-- Field lookup in a JSON object (`none` on non-objects or missing keys). -/
def Json.getField : Json → String → Option Json
  | Json.obj kvs, k => kvs.lookup k
  | _, _ => none

/-- The pandas DataFrame values reaching `format_dataframe_to_json`:
column labels in order, and rows in order, each row holding one
already-JSON-converted cell per column. -/
structure DataFrame where
  columns : List String
  rows : List (List Json)

/-- Python `len(df)`: the number of rows. -/
def DataFrame.len (df : DataFrame) : Nat := df.rows.length

/-- pandas `df.empty`: true iff either axis has length 0 (a frame with rows
but no columns, or columns but no rows, is empty). -/
def DataFrame.empty (df : DataFrame) : Bool :=
  df.rows.isEmpty || df.columns.isEmpty

/-- pandas `df.head(n)`: the first `n` rows for `n ≥ 0`; for negative `n`,
all rows but the last `|n|`. -/
def DataFrame.head (df : DataFrame) (n : Int) : DataFrame :=
  if 0 ≤ n then ⟨df.columns, df.rows.take n.toNat⟩
  else ⟨df.columns, df.rows.take (df.rows.length - (-n).toNat)⟩

/-- `json.loads(df.to_json(orient="records"))`: one JSON object per row,
keying each cell by its column label, in row order. -/
def DataFrame.toRecords (df : DataFrame) : Json :=
  Json.arr (df.rows.map (fun r => Json.obj (df.columns.zip r)))

/-- The dictionary `format_dataframe_to_json` serializes: either the error
object of the `df is None or df.empty` branch (src/main.py line 13), or the
`result` dictionary of src/main.py lines 23-29, built after the truncation
step of lines 16-20 rebinds `df`. -/
def format_envelope (dfOpt : Option DataFrame) (max_rows : Int) : Json :=
  match dfOpt with
  | none => Json.obj [("error", Json.str "No data available")]
  | some df0 =>
    if df0.empty then Json.obj [("error", Json.str "No data available")]
    else
      let df := if (df0.len : Int) > max_rows then df0.head max_rows else df0
      let truncated : Bool := decide ((df0.len : Int) > max_rows)
      Json.obj
        [ ("data", df.toRecords)
        , ("columns", Json.arr (df.columns.map Json.str))
        , ("truncated", Json.bool truncated)
        , ("total_rows", Json.int (df.len : Int))
        , ("displayed_rows", Json.int (min max_rows (df.len : Int)))
        ]

/-- `format_dataframe_to_json(df, max_rows=50)` from src/main.py lines
10-31 (src/server.py lines 11-32 is character-identical): both return paths
are `json.dumps` of the dictionary modelled by `format_envelope`. -/
def format_dataframe_to_json (dfOpt : Option DataFrame) (max_rows : Int := 50) : String :=
  jsonDumps (format_envelope dfOpt max_rows)

/-- Length of the `data` array of an envelope (`none` when there is no
`data` field or it is not an array). -/
def Json.dataLength (j : Json) : Option Nat :=
  match j.getField "data" with
  | some (Json.arr l) => some l.length
  | _ => none

/-- One invocation of an external akshare library function: the dotted
function name and the keyword arguments the wrapper's body passes. -/
structure ExtCall where
  fn : String
  kwargs : List (String × String)

set_option linter.unusedVariables false in
/-- The external call performed by the body of `stock_hk_hist` in
src/server.py: `df = ak.stock_hk_hist()` — the name `ak.stock_hk_hist`
with an empty argument list, whatever the wrapper's five parameters
(`symbol`, `period`, `adjust`, `start_date`, `end_date`) hold. -/
def stock_hk_hist_call (symbol period adjust start_date end_date : String) : ExtCall :=
  ⟨"ak.stock_hk_hist", []⟩

/-- The external call performed by the body of `stock_szse_summary` in
src/main.py line 71: `df = ak.stock_szse_summary(date=date)`. -/
def stock_szse_summary_call (date : String) : ExtCall :=
  ⟨"ak.stock_szse_summary", [("date", date)]⟩

/-- The body shape shared by every `@mcp.tool()` wrapper in src/main.py
(44 tools) and src/server.py (351 tools): return the try-block's string
when it succeeds, and on any exception `e` return
`json.dumps({"error": str(e)})`. -/
def tool_wrapper (tryBody : Except String String) : String :=
  match tryBody with
  | Except.ok s => s
  | Except.error e => jsonDumps (Json.obj [("error", Json.str e)])

/-- `stock_sse_summary` from src/main.py lines 36-53, parametrized by the
outcome of the `ak.stock_sse_summary()` call (`Except.error e` models the
call raising an exception whose `str` is `e`): format the frame on
success, catch everything else into the error object. -/
def stock_sse_summary (akResult : Except String (Option DataFrame)) : String :=
  tool_wrapper (akResult.map (fun df => format_dataframe_to_json df 50))

/-! ### Helper lemmas shared by the claim theorems -/

theorem DataFrame.head_columns (df : DataFrame) (n : Int) :
    (df.head n).columns = df.columns := by
  unfold DataFrame.head; split <;> rfl

theorem DataFrame.head_rows_nonneg (df : DataFrame) (n : Int) (h : 0 ≤ n) :
    (df.head n).rows = df.rows.take n.toNat := by
  unfold DataFrame.head; rw [if_pos h]

/-- The success branch of `format_dataframe_to_json` when no truncation
happens (`len(df) ≤ max_rows`). -/
theorem format_envelope_le (df : DataFrame) (cap : Int)
    (hne : df.empty = false) (hle : (df.len : Int) ≤ cap) :
    format_envelope (some df) cap = Json.obj
      [ ("data", df.toRecords)
      , ("columns", Json.arr (df.columns.map Json.str))
      , ("truncated", Json.bool false)
      , ("total_rows", Json.int (df.len : Int))
      , ("displayed_rows", Json.int (df.len : Int))
      ] := by
  have hnotgt : ¬ ((df.len : Int) > cap) := not_lt.mpr hle
  simp only [format_envelope, hne, Bool.false_eq_true, if_false, if_neg hnotgt,
    decide_eq_false hnotgt, min_eq_right hle]

/-- The success branch of `format_dataframe_to_json` when truncation
happens (`len(df) > max_rows`, with a nonnegative cap). -/
theorem format_envelope_gt (df : DataFrame) (cap : Int)
    (hne : df.empty = false) (hgt : cap < (df.len : Int)) (hcap : 0 ≤ cap) :
    format_envelope (some df) cap = Json.obj
      [ ("data", (df.head cap).toRecords)
      , ("columns", Json.arr (df.columns.map Json.str))
      , ("truncated", Json.bool true)
      , ("total_rows", Json.int cap)
      , ("displayed_rows", Json.int cap)
      ] := by
  have hlen : (df.head cap).len = cap.toNat := by
    unfold DataFrame.len at hgt ⊢
    rw [DataFrame.head_rows_nonneg df cap hcap, List.length_take]
    have hle : cap.toNat ≤ df.rows.length := by omega
    exact Nat.min_eq_left hle
  have hcast : ((df.head cap).len : Int) = cap := by
    rw [hlen]; exact Int.toNat_of_nonneg hcap
  simp only [format_envelope, hne, Bool.false_eq_true, if_false, if_pos hgt,
    decide_eq_true hgt, DataFrame.head_columns, hcast, min_self]

/-! ### Claim theorems -/

/-- The 120-row, two-column table of the spec's worked example. -/
def df120 : DataFrame :=
  ⟨["date", "close"], (List.range 120).map (fun i => [Json.int i, Json.int i])⟩

set_option maxRecDepth 4000 in
/-- C1: the spec says a 120-row table capped at 50 reports
`total_rows = 120`; the code rebinds `df` to the truncated frame before
computing `len(df)`, so the envelope reports `total_rows = 50` (and
`displayed_rows = 50`, `truncated = true`). -/
theorem total_rows_is_posttruncation_count :
    df120.len = 120 ∧
    (format_envelope (some df120) 50).getField "truncated" = some (Json.bool true) ∧
    (format_envelope (some df120) 50).getField "total_rows" = some (Json.int 50) ∧
    (format_envelope (some df120) 50).getField "displayed_rows" = some (Json.int 50) ∧
    (50 : Int) ≠ 120 :=
  ⟨rfl, rfl, rfl, rfl, by decide⟩

/-- A 51-row, one-column table: the smallest shape crossing the default cap. -/
def df51 : DataFrame := ⟨["c"], (List.range 51).map (fun i => [Json.int i])⟩

/-- C2: the invariant `truncated ⇔ total_rows > cap` fails on the reported
values: a 51-row table at cap 50 yields `truncated = true` together with
`total_rows = 50`, and `50 > 50` is false. -/
theorem truncated_true_total_rows_not_over_cap :
    (format_envelope (some df51) 50).getField "truncated" = some (Json.bool true) ∧
    (format_envelope (some df51) 50).getField "total_rows" = some (Json.int 50) ∧
    ¬ ((50 : Int) > 50) :=
  ⟨rfl, rfl, by decide⟩

/-- C3: the `stock_hk_hist` wrapper in src/server.py declares `symbol`,
`period`, `adjust`, `start_date` and `end_date` but invokes
`ak.stock_hk_hist()` with an empty argument list, so the caller-supplied
values are never passed; `stock_szse_summary` in src/main.py, by contrast,
does forward its `date` parameter. -/
theorem stock_hk_hist_drops_parameters :
    stock_hk_hist_call "00700" "weekly" "qfq" "20240101" "20240630" =
      ⟨"ak.stock_hk_hist", []⟩ ∧
    (stock_hk_hist_call "00700" "weekly" "qfq" "20240101" "20240630").kwargs.lookup "symbol"
      = none ∧
    stock_szse_summary_call "20240305" = ⟨"ak.stock_szse_summary", [("date", "20240305")]⟩ :=
  ⟨rfl, rfl, rfl⟩

/-- C4: whenever the try-block of a tool wrapper raises an exception whose
string form is `e`, the wrapper returns `json.dumps` of the object whose
single key is `error` mapped to `e`; the wrapper itself is a total
function, so no exception escapes to the protocol level. -/
theorem wrapper_catches_all_exceptions (e : String) :
    stock_sse_summary (Except.error e) = jsonDumps (Json.obj [("error", Json.str e)]) ∧
    (Json.obj [("error", Json.str e)]).getField "error" = some (Json.str e) ∧
    ∀ body : Except String String,
      tool_wrapper body =
        match body with
        | Except.ok s => s
        | Except.error msg => jsonDumps (Json.obj [("error", Json.str msg)]) :=
  ⟨rfl, rfl, fun _ => rfl⟩

/-- C4 witness at a concrete exception string. -/
theorem wrapper_catches_all_exceptions_witness :
    stock_sse_summary (Except.error "boom") =
      jsonDumps (Json.obj [("error", Json.str "boom")]) :=
  (wrapper_catches_all_exceptions "boom").1

/-- C5: an absent (`None`) input, or a table with zero rows, yields exactly
the string `json.dumps({"error": "No data available"})`, for every cap. -/
theorem format_absent_or_zero_rows (dfOpt : Option DataFrame) (cap : Int)
    (h : dfOpt = none ∨ ∃ df, dfOpt = some df ∧ df.len = 0) :
    format_dataframe_to_json dfOpt cap = "\x7b\"error\": \"No data available\"\x7d" := by
  rcases h with h | ⟨df, rfl, hlen⟩
  · subst h; rfl
  · have hrows : df.rows = [] := by
      unfold DataFrame.len at hlen
      exact List.length_eq_zero.mp hlen
    have hempty : df.empty = true := by
      simp [DataFrame.empty, hrows]
    have henv : format_envelope (some df) cap =
        Json.obj [("error", Json.str "No data available")] := by
      simp [format_envelope, hempty]
    unfold format_dataframe_to_json
    rw [henv]
    rfl

/-- C5 witness: a one-column, zero-row table at the default cap. -/
theorem format_absent_or_zero_rows_witness :
    format_dataframe_to_json (some ⟨["a"], []⟩) 50 =
      "\x7b\"error\": \"No data available\"\x7d" :=
  format_absent_or_zero_rows (some ⟨["a"], []⟩) 50 (Or.inr ⟨⟨["a"], []⟩, rfl, rfl⟩)

/-- C6: a non-empty table whose row count `n` does not exceed the cap is
reported untruncated, with `total_rows = displayed_rows = n` and a `data`
array of exactly `n` records. -/
theorem format_within_cap (df : DataFrame) (cap : Int)
    (hne : df.empty = false) (hle : (df.len : Int) ≤ cap) :
    (format_envelope (some df) cap).getField "truncated" = some (Json.bool false) ∧
    (format_envelope (some df) cap).getField "total_rows" = some (Json.int (df.len : Int)) ∧
    (format_envelope (some df) cap).getField "displayed_rows"
      = some (Json.int (df.len : Int)) ∧
    (format_envelope (some df) cap).dataLength = some df.len := by
  have h := format_envelope_le df cap hne hle
  refine ⟨?_, ?_, ?_, ?_⟩ <;> rw [h]
  · rfl
  · rfl
  · rfl
  · simp [Json.dataLength, Json.getField, List.lookup, DataFrame.toRecords, DataFrame.len]

/-- C6 witness: a one-row table under the default cap. -/
theorem format_within_cap_witness :
    (format_envelope (some (DataFrame.mk ["a"] [[Json.int 7]])) 50).getField "truncated"
      = some (Json.bool false) ∧
    (format_envelope (some (DataFrame.mk ["a"] [[Json.int 7]])) 50).getField "total_rows"
      = some (Json.int 1) ∧
    (format_envelope (some (DataFrame.mk ["a"] [[Json.int 7]])) 50).getField "displayed_rows"
      = some (Json.int 1) ∧
    (format_envelope (some (DataFrame.mk ["a"] [[Json.int 7]])) 50).dataLength = some 1 :=
  format_within_cap (DataFrame.mk ["a"] [[Json.int 7]]) 50 rfl (by decide)

/-- C7: for every non-empty table and every cap, the `columns` field lists
exactly the source table's column labels in source order (truncation via
`df.head` never touches the column axis). -/
theorem columns_match_source (df : DataFrame) (cap : Int) (hne : df.empty = false) :
    (format_envelope (some df) cap).getField "columns"
      = some (Json.arr (df.columns.map Json.str)) := by
  unfold format_envelope
  simp only [hne, Bool.false_eq_true, if_false]
  by_cases hgt : (df.len : Int) > cap
  · simp only [if_pos hgt, DataFrame.head_columns]
    rfl
  · simp only [if_neg hgt]
    rfl

/-- C7 witness: a two-column table, with a negative cap to exercise the
truncation branch as well. -/
theorem columns_match_source_witness :
    (format_envelope (some (DataFrame.mk ["x", "y"] [[Json.int 1, Json.int 2]])) (-3)).getField
        "columns" = some (Json.arr [Json.str "x", Json.str "y"]) :=
  columns_match_source (DataFrame.mk ["x", "y"] [[Json.int 1, Json.int 2]]) (-3) rfl

/-- C8: the formatter is a pure function of the table contents and the cap:
two tables with the same columns and the same rows produce byte-identical
JSON strings at the same cap (and in particular repeating an invocation
reproduces the same string). -/
theorem format_deterministic (df1 df2 : DataFrame) (cap : Int)
    (hc : df1.columns = df2.columns) (hr : df1.rows = df2.rows) :
    format_dataframe_to_json (some df1) cap = format_dataframe_to_json (some df2) cap := by
  obtain ⟨c1, r1⟩ := df1
  obtain ⟨c2, r2⟩ := df2
  cases hc
  cases hr
  rfl

/-- C8 witness: two structurally equal one-row tables. -/
theorem format_deterministic_witness :
    format_dataframe_to_json (some (DataFrame.mk ["a"] [[Json.null]])) 50 =
      format_dataframe_to_json (some (DataFrame.mk ["a"] [[Json.null]])) 50 :=
  format_deterministic (DataFrame.mk ["a"] [[Json.null]]) (DataFrame.mk ["a"] [[Json.null]])
    50 rfl rfl

/-- C9: in every success envelope built with a nonnegative cap (the
program only ever uses the default cap 50), the reported `total_rows`
equals the reported `displayed_rows`, both equal the length of the `data`
array, namely `min cap n`, and all stay at or below the cap; moreover two
tables longer than the cap that agree on their columns and their first
`cap` rows produce identical envelopes, so the original row count is not
recoverable. -/
theorem success_envelope_counts :
    (∀ (df : DataFrame) (cap : Int), df.empty = false → 0 ≤ cap →
      (format_envelope (some df) cap).getField "total_rows"
          = some (Json.int (min cap (df.len : Int))) ∧
      (format_envelope (some df) cap).getField "displayed_rows"
          = some (Json.int (min cap (df.len : Int))) ∧
      (format_envelope (some df) cap).dataLength = some (min cap (df.len : Int)).toNat ∧
      min cap (df.len : Int) ≤ cap) ∧
    (∀ (df1 df2 : DataFrame) (cap : Int), 0 ≤ cap →
      df1.columns = df2.columns →
      cap < (df1.len : Int) → cap < (df2.len : Int) →
      df1.rows.take cap.toNat = df2.rows.take cap.toNat →
      format_envelope (some df1) cap = format_envelope (some df2) cap) := by
  constructor
  · intro df cap hne hcap
    by_cases hgt : (df.len : Int) > cap
    · have h := format_envelope_gt df cap hne hgt hcap
      have hmin : min cap (df.len : Int) = cap := min_eq_left (le_of_lt hgt)
      have hlen : (df.head cap).rows.length = cap.toNat := by
        rw [DataFrame.head_rows_nonneg df cap hcap, List.length_take]
        unfold DataFrame.len at hgt
        exact Nat.min_eq_left (by omega)
      refine ⟨?_, ?_, ?_, ?_⟩
      · rw [h, hmin]; rfl
      · rw [h, hmin]; rfl
      · rw [h, hmin]
        simp [Json.dataLength, Json.getField, List.lookup, DataFrame.toRecords, hlen]
      · rw [hmin]
    · have hle : (df.len : Int) ≤ cap := not_lt.mp hgt
      have h := format_envelope_le df cap hne hle
      have hmin : min cap (df.len : Int) = (df.len : Int) := min_eq_right hle
      refine ⟨?_, ?_, ?_, ?_⟩
      · rw [h, hmin]; rfl
      · rw [h, hmin]; rfl
      · rw [h, hmin]
        simp [Json.dataLength, Json.getField, List.lookup, DataFrame.toRecords,
          DataFrame.len]
      · rw [hmin]; exact hle
  · intro df1 df2 cap hcap hc h1 h2 htake
    have hlen1 : 0 < df1.rows.length := by unfold DataFrame.len at h1; omega
    have hlen2 : 0 < df2.rows.length := by unfold DataFrame.len at h2; omega
    have hr1 : df1.rows.isEmpty = false := by
      cases hw : df1.rows with
      | nil => rw [hw] at hlen1; simp at hlen1
      | cons a l => simp
    have hr2 : df2.rows.isEmpty = false := by
      cases hw : df2.rows with
      | nil => rw [hw] at hlen2; simp at hlen2
      | cons a l => simp
    by_cases hcb : df1.columns.isEmpty = true
    · have he1 : df1.empty = true := by simp [DataFrame.empty, hcb]
      have he2 : df2.empty = true := by simp [DataFrame.empty, ← hc, hcb]
      simp [format_envelope, he1, he2]
    · have hcb' : df1.columns.isEmpty = false := by simpa using hcb
      have he1 : df1.empty = false := by simp [DataFrame.empty, hr1, hcb']
      have he2 : df2.empty = false := by simp [DataFrame.empty, hr2, ← hc, hcb']
      rw [format_envelope_gt df1 cap he1 h1 hcap, format_envelope_gt df2 cap he2 h2 hcap]
      simp only [DataFrame.toRecords, DataFrame.head_rows_nonneg _ _ hcap,
        DataFrame.head_columns, hc, htake]

/-- C9 witness: a 3-row table at cap 2 (first conjunct) and two tables of
lengths 3 and 4 agreeing on their first 2 rows (second conjunct). -/
theorem success_envelope_counts_witness :
    ((format_envelope (some (DataFrame.mk ["a"] [[Json.int 1], [Json.int 2], [Json.int 3]])) 2).getField
        "total_rows" = some (Json.int (min 2 ((DataFrame.mk ["a"] [[Json.int 1], [Json.int 2], [Json.int 3]]).len : Int))) ∧
      (format_envelope (some (DataFrame.mk ["a"] [[Json.int 1], [Json.int 2], [Json.int 3]])) 2).getField
        "displayed_rows" = some (Json.int (min 2 ((DataFrame.mk ["a"] [[Json.int 1], [Json.int 2], [Json.int 3]]).len : Int))) ∧
      (format_envelope (some (DataFrame.mk ["a"] [[Json.int 1], [Json.int 2], [Json.int 3]])) 2).dataLength
        = some (min 2 ((DataFrame.mk ["a"] [[Json.int 1], [Json.int 2], [Json.int 3]]).len : Int)).toNat ∧
      min 2 ((DataFrame.mk ["a"] [[Json.int 1], [Json.int 2], [Json.int 3]]).len : Int) ≤ 2) ∧
    format_envelope (some (DataFrame.mk ["a"] [[Json.int 1], [Json.int 2], [Json.int 3]])) 2 =
      format_envelope (some (DataFrame.mk ["a"] [[Json.int 1], [Json.int 2], [Json.int 9], [Json.int 8]])) 2 :=
  ⟨success_envelope_counts.1 (DataFrame.mk ["a"] [[Json.int 1], [Json.int 2], [Json.int 3]])
      2 rfl (by decide),
    success_envelope_counts.2 (DataFrame.mk ["a"] [[Json.int 1], [Json.int 2], [Json.int 3]])
      (DataFrame.mk ["a"] [[Json.int 1], [Json.int 2], [Json.int 9], [Json.int 8]])
      2 (by decide) rfl (by decide) (by decide) rfl⟩

/-- C10 counterexample: pandas `df.empty` is true whenever either axis has
length 0, so a one-row, zero-column frame — `len(df) = 1 ≠ 0` — still
takes the `"No data available"` branch, refuting "error envelope iff
absent or zero rows". -/
theorem error_on_zero_column_nonzero_row_frame :
    (DataFrame.mk [] [[]]).len = 1 ∧
    format_dataframe_to_json (some (DataFrame.mk [] [[]])) 50 =
      "\x7b\"error\": \"No data available\"\x7d" :=
  ⟨rfl, rfl⟩

/-- C10 (amended): for every input and every cap, the formatter produces
the `"No data available"` error envelope exactly when the input is absent
or pandas-empty — zero rows or zero columns; any other frame yields the
five-field success envelope. -/
theorem error_envelope_iff_absent_or_empty (dfOpt : Option DataFrame) (cap : Int) :
    format_envelope dfOpt cap = Json.obj [("error", Json.str "No data available")] ↔
      (dfOpt = none ∨ ∃ df, dfOpt = some df ∧ df.empty = true) := by
  cases dfOpt with
  | none => simp [format_envelope]
  | some df =>
    by_cases hemp : df.empty = true
    · simp [format_envelope, hemp]
    · have hne : df.empty = false := by simpa using hemp
      constructor
      · intro h
        exfalso
        have hkeys := congrArg (fun j => match j with
          | Json.obj kvs => kvs.length
          | _ => 0) h
        simp only [format_envelope, hne, Bool.false_eq_true, if_false] at hkeys
        simp at hkeys
      · rintro (h | ⟨df', heq, hemp'⟩)
        · exact absurd h (by simp)
        · injection heq with heq'
          rw [heq'] at hne
          rw [hemp'] at hne
          exact absurd hne (by simp)

/-- C10 witness for the amended statement: the absent input at the default
cap. -/
theorem error_envelope_iff_absent_or_empty_witness :
    format_envelope none 50 = Json.obj [("error", Json.str "No data available")] :=
  (error_envelope_iff_absent_or_empty none 50).mpr (Or.inl rfl)
